import Mathlib

/-!
Shallow embedding of the signal-coordination worker of the titration-curve
repository (src/worker.rs), together with theorems settling the claims about
its SignalGate locking discipline, its dispatch loop, and its table loader.

Numeric cell values and the derived curve quantities are modelled over `ℚ`
(the claims proved here concern control flow and data-structure shape, not
floating-point rounding).  The transcendental `f32::log10` used for the pH
column is passed in as an explicit function parameter `lg`.
-/

namespace Titration

/-- Model of a filesystem path (`std::path::PathBuf`); paths are opaque identifiers. -/
abbrev Path := Nat

/-- The `Signal` enum of src/worker.rs: `Update = 0`, `FileDialog = 1`, `Stop = 2`. -/
inductive Signal
  | Update
  | FileDialog
  | Stop
deriving DecidableEq

/-- The `#[repr]` discriminant of each variant; Rust derives `Ord` on this C-like
enum as discriminant order. -/
def Signal.toNat : Signal → Nat
  | .Update => 0
  | .FileDialog => 1
  | .Stop => 2

/-- The derived `<=` of the Rust `Signal` enum (discriminant order). -/
def Signal.le (a b : Signal) : Bool :=
  a.toNat ≤ b.toNat

/-- `Signal::is_lock` of src/worker.rs: the body is literally `true` for every
variant (the commented-out match in the source also listed all three variants). -/
def Signal.is_lock (_s : Signal) : Bool :=
  true

/-- `Signal::should_skip(self, lock)` of src/worker.rs: matches on `lock`;
for `Update` and `FileDialog` locks the result is `self <= lock`, for a `Stop`
lock it is always `true`. -/
def Signal.should_skip (s lock : Signal) : Bool :=
  match lock with
  | .Update => s.le lock
  | .FileDialog => s.le lock
  | .Stop => true

/-- `Signal::can_unlock(self, lock)` of src/worker.rs: matches on the `lock`
parameter; for `Update` and `FileDialog` the result is `self >= lock`, for
`Stop` it is `false`. -/
def Signal.can_unlock (s lock : Signal) : Bool :=
  match lock with
  | .Update => lock.le s
  | .FileDialog => lock.le s
  | .Stop => false

/-- The `WorkerError` enum of src/worker.rs.  The `calamine::Error` payload of
`TableError` is an opaque external value and is not modelled. -/
inductive WorkerError
  | FileDoesNotExist
  | TableError
  | NoTableInWorkbook
  | TableNotCorrectlyFormatted
deriving DecidableEq

/-- One `OutputItem` row of src/worker.rs (all eight public fields). -/
structure OutputItem where
  m_v : ℚ
  ph : ℚ
  total_v : ℚ
  n1 : ℚ
  n2 : ℚ
  c1 : ℚ
  c2 : ℚ
  poh : ℚ
deriving DecidableEq

/-- The `Output` struct of src/worker.rs. -/
structure Output where
  items : List OutputItem
deriving DecidableEq

/-- The `Response` enum of src/worker.rs (the `Arc` wrapper around `Output` is
immaterial to the model). -/
inductive Response
  | Unload
  | Output (o : Output)
  | Error (e : WorkerError)
deriving DecidableEq

/-- Is this response an `Output`? -/
def Response.isOutput : Response → Bool
  | .Output _ => true
  | _ => false

/-- The `Input` struct of src/worker.rs. -/
structure Input where
  t_v : ℚ
  t_c : ℚ
  m_c : ℚ
  m_v : List ℚ
  acid : ℚ
  base : ℚ

/-- `Input::calculate_output` of src/worker.rs: one `OutputItem` is pushed per
entry of `m_v`, in order.  `lg` stands for `f32::log10`. -/
def Input.calculate_output (i : Input) (lg : ℚ → ℚ) : Output :=
  { items :=
      i.m_v.map fun m_v =>
        let total_v := m_v + 10
        let n1 : ℚ := 1 / 1000
        let n2 := m_v / 1000 * i.m_c
        let c1 := n1 / (total_v / 1000)
        let c2 : ℚ := 0
        let ph := -(lg c1)
        let poh := 14 - ph
        { m_v := m_v, ph := ph, total_v := total_v, n1 := n1, n2 := n2,
          c1 := c1, c2 := c2, poh := poh } }

/-- The `reduce(f32::max)` step of `Output::max_m_v`: `none` exactly on the
empty list, otherwise the left fold of `max`. -/
def reduceMax : List ℚ → Option ℚ
  | [] => none
  | x :: xs => some (xs.foldl max x)

/-- `Output::max_m_v` of src/worker.rs:
`items.iter().map(|it| it.m_v).reduce(f32::max).unwrap_or(0.0)`. -/
def Output.max_m_v (o : Output) : ℚ :=
  (reduceMax (o.items.map OutputItem.m_v)).getD 0

/-- A calamine worksheet range: a rectangular grid of cells.  `cell r c` is the
`as_f64` view of the cell at (row, column), `none` when the cell holds no number. -/
structure Worksheet where
  height : Nat
  width : Nat
  cell : Nat → Nat → Option ℚ

/-- The possible outcomes of `calamine::open_workbook_auto` followed by
`worksheet_range_at(0)` in `load_file`. -/
inductive OpenResult
  | openErr
  | noSheet
  | sheetErr
  | sheet (ws : Worksheet)

/-- The row loop of `load_file` over the given row indices: for each row, error
if the row is empty (`width = 0`), error if cell 0 of the row is not a number,
otherwise collect it. -/
def read_m_v (ws : Worksheet) : List Nat → Option (List ℚ)
  | [] => some []
  | r :: rest =>
    if ws.width = 0 then none
    else
      match ws.cell r 0 with
      | none => none
      | some v =>
        match read_m_v ws rest with
        | none => none
        | some vs => some (v :: vs)

/-- `load_file` of src/worker.rs, as a function from the workbook-opening
outcome to the single `Response` it sends:
open failure → `TableError`; no sheet at index 0 → `NoTableInWorkbook`;
sheet read failure → `TableError`; fewer than 6 rows or 6 columns →
`TableNotCorrectlyFormatted`; cells (0,2), (1,2), (2,2) must be numbers
(`t_v`, `t_c`, `m_c`); every row from index 5 on must have a numeric first
cell, collected as `m_v`; then the output is computed with `acid = base = 0`. -/
def load_file (lg : ℚ → ℚ) (res : OpenResult) : Response :=
  match res with
  | .openErr => .Error .TableError
  | .noSheet => .Error .NoTableInWorkbook
  | .sheetErr => .Error .TableError
  | .sheet ws =>
    if ws.height < 6 ∨ ws.width < 6 then .Error .TableNotCorrectlyFormatted
    else
      match ws.cell 0 2, ws.cell 1 2, ws.cell 2 2 with
      | some t_v, some t_c, some m_c =>
        match read_m_v ws ((List.range ws.height).drop 5) with
        | none => .Error .TableNotCorrectlyFormatted
        | some m_v =>
          .Output ((Input.mk t_v t_c m_c m_v 0 0).calculate_output lg)
      | _, _, _ => .Error .TableNotCorrectlyFormatted

/-- The SignalGate state of the `Worker` struct: the `signal_lock` mutex value
and the FIFO of signals enqueued on `signal_sender` but not yet received. -/
structure GateState where
  lock : Option Signal
  queue : List Signal
deriving DecidableEq

/-- `Worker::send_signal` of src/worker.rs: under the mutex, skip the signal if
the recorded lock demands it; otherwise record it as the lock when it is a lock
signal, and enqueue it. -/
def send_signal (g : GateState) (signal : Signal) : GateState :=
  if (match g.lock with
      | some lock => signal.should_skip lock
      | none => false) then g
  else
    { lock := if signal.is_lock then some signal else g.lock
      queue := g.queue ++ [signal] }

/-- `Worker::reset_signal_lock` of src/worker.rs, as the new mutex value: no-op
when no lock is recorded, or when `lock_signal.can_unlock(signal)` is false;
otherwise the lock is cleared. -/
def reset_signal_lock (lock : Option Signal) (signal : Signal) : Option Signal :=
  match lock with
  | none => lock
  | some lock_signal =>
    if lock_signal.can_unlock signal then none else lock

/-- The environment one iteration of the worker loop observes: the file-dialog
result, which paths exist as files, whether `watcher.watch` succeeds, and the
workbook-opening outcome for each path. -/
structure Env where
  pickFile : Option Path
  isFile : Path → Bool
  watchOk : Path → Bool
  openWorkbook : Path → OpenResult

/-- The worker-loop state owned by `worker_impl_try`: the tracked `path`
variable and the set of paths currently watched by the `PollWatcher`. -/
structure WorkerState where
  path : Option Path
  watched : List Path
deriving DecidableEq

/-- `watcher.watch` on the set of watched paths (watching an already-watched
path keeps a single watch). -/
def watchAdd (p : Path) (ps : List Path) : List Path :=
  if p ∈ ps then ps else p :: ps

/-- Outcome of one iteration of the loop in `worker_impl_try`. -/
inductive StepResult
  | cont (st : WorkerState) (resps : List Response)
  | stopped (resps : List Response)
  | fatal (resps : List Response)
deriving DecidableEq

/-- The responses sent during one loop iteration. -/
def StepResult.resps : StepResult → List Response
  | .cont _ rs => rs
  | .stopped rs => rs
  | .fatal rs => rs

/-- The worker state after a `cont` iteration, a default otherwise. -/
def StepResult.stateD (r : StepResult) (d : WorkerState) : WorkerState :=
  match r with
  | .cont st _ => st
  | _ => d

/-- One iteration of the match in `worker_impl_try` on a received signal.
`FileDialog`: if the picker is cancelled, nothing happens; if the chosen path
is not a file, `Error(FileDoesNotExist)`; if `watcher.watch` fails the `?`
operator aborts the whole loop (fatal); otherwise the new path is watched,
`load_file` runs, and `path` is set to the chosen file regardless of the load
outcome.  `Update`: nothing when no path is tracked; if the tracked path is no
longer a file it is unwatched, `path` is cleared and `Unload` is sent;
otherwise `load_file` reruns on it.  `Stop`: breaks the loop. -/
def worker_step (lg : ℚ → ℚ) (env : Env) (st : WorkerState) (signal : Signal) : StepResult :=
  match signal with
  | .FileDialog =>
    match env.pickFile with
    | none => .cont st []
    | some file =>
      if ¬ env.isFile file then .cont st [.Error .FileDoesNotExist]
      else if ¬ env.watchOk file then .fatal []
      else
        .cont { path := some file, watched := watchAdd file st.watched }
          [load_file lg (env.openWorkbook file)]
  | .Update =>
    match st.path with
    | none => .cont st []
    | some some_path =>
      if ¬ env.isFile some_path then
        .cont { path := none, watched := st.watched.erase some_path } [.Unload]
      else .cont st [load_file lg (env.openWorkbook some_path)]
  | .Stop => .stopped []

/-- Overall outcome of `worker_impl_try`: `finished` is `Ok(())` (loop broken
by `Stop`), `crashed` is an `Err` return (channel closed or a watcher
operation failed), each with the responses sent along the way. -/
inductive RunOutcome
  | finished (resps : List Response) (st : WorkerState)
  | crashed (resps : List Response)
deriving DecidableEq

/-- The signal loop of `worker_impl_try` over a list of received signals; an
exhausted list models `recv()` failing (channel closed), which the `?`
operator turns into an `Err` return. -/
def worker_loop (lg : ℚ → ℚ) (env : Env) (st : WorkerState) : List Signal → RunOutcome
  | [] => .crashed []
  | signal :: rest =>
    match worker_step lg env st signal with
    | .cont st2 rs =>
      match worker_loop lg env st2 rest with
      | .finished rs2 st3 => .finished (rs ++ rs2) st3
      | .crashed rs2 => .crashed (rs ++ rs2)
    | .stopped rs => .finished rs st
    | .fatal rs => .crashed rs

/-- `worker_impl_try` from the top: `PollWatcher::new` may fail (`ctorOk`
false), in which case the `?` operator returns `Err` before any signal is
processed; otherwise the loop runs from `path = None` with nothing watched. -/
def worker_run (lg : ℚ → ℚ) (ctorOk : Bool) (env : Env) (signals : List Signal) : RunOutcome :=
  if ctorOk then worker_loop lg env { path := none, watched := [] } signals
  else .crashed []

/-- The kind of a `notify` watcher event, as matched by the callback. -/
inductive WatchEventKind
  | Modify
  | Remove
  | Other
deriving DecidableEq

/-- The `PollWatcher` callback of `worker_impl_try`: an event-stream error is
only logged (no gate change, no response); a `Modify` or `Remove` event sends
`Signal::Update` through `send_signal`; other kinds are ignored. -/
def watcher_callback (g : GateState) (res : Except Unit WatchEventKind) : GateState :=
  match res with
  | .error _ => g
  | .ok kind =>
    match kind with
    | .Modify => send_signal g .Update
    | .Remove => send_signal g .Update
    | .Other => g

/-- Combined state of the gate and the worker loop, for whole-system traces. -/
structure SysState where
  gate : GateState
  worker : WorkerState
  alive : Bool
  responses : List Response
deriving DecidableEq

/-- An action of the system: some caller (UI thread or watcher callback) calls
`send_signal`, or the worker dequeues and processes the next queued signal. -/
inductive Act
  | send (s : Signal)
  | process

/-- One system step.  `send` runs `send_signal` under the mutex.  `process`
dequeues the head signal, runs one loop iteration, and — exactly as in
`worker_impl_try` — calls `reset_signal_lock` afterwards only when the loop
continues (`Stop` breaks and a watcher failure aborts before the reset call);
when the loop ends, `worker_impl` sets the alive flag to false. -/
def sysStep (lg : ℚ → ℚ) (env : Env) (st : SysState) : Act → SysState
  | .send s => { st with gate := send_signal st.gate s }
  | .process =>
    match st.gate.queue with
    | [] => st
    | signal :: rest =>
      match worker_step lg env st.worker signal with
      | .cont w2 rs =>
        { gate := { lock := reset_signal_lock st.gate.lock signal, queue := rest }
          worker := w2
          alive := st.alive
          responses := st.responses ++ rs }
      | .stopped rs =>
        { gate := { st.gate with queue := rest }
          worker := st.worker
          alive := false
          responses := st.responses ++ rs }
      | .fatal rs =>
        { gate := { st.gate with queue := rest }
          worker := st.worker
          alive := false
          responses := st.responses ++ rs }

/-- Run a list of actions from a starting system state. -/
def sysRun (lg : ℚ → ℚ) (env : Env) (st : SysState) : List Act → SysState
  | [] => st
  | a :: rest => sysRun lg env (sysStep lg env st a) rest

/-- A stand-in for `f32::log10` in concrete evaluations. -/
def lg0 : ℚ → ℚ := fun _ => 0

/-- The initial worker-loop state: no tracked path, nothing watched. -/
def wst0 : WorkerState := { path := none, watched := [] }

/-- The initial system state: empty gate (`Mutex::default()` is `None`), empty
queue, initial worker state, worker alive, no responses. -/
def sys0 : SysState :=
  { gate := { lock := none, queue := [] }
    worker := wst0
    alive := true
    responses := [] }

/-- A 6-by-6 worksheet whose every cell is the number 1 (a well-formed table). -/
def ws6 : Worksheet := { height := 6, width := 6, cell := fun _ _ => some 1 }

/-- The output produced by loading `ws6` with `lg0`. -/
def out6 : Output := (Input.mk 1 1 1 [1] 0 0).calculate_output lg0

/-- Environment where the picker chooses path 0 but the path is not a file. -/
def envNoFile : Env :=
  { pickFile := some 0
    isFile := fun _ => false
    watchOk := fun _ => true
    openWorkbook := fun _ => .sheet ws6 }

/-- Environment where the picker chooses path 0, the file exists, watching
works, but opening the workbook fails. -/
def envOpenErr : Env :=
  { pickFile := some 0
    isFile := fun _ => true
    watchOk := fun _ => true
    openWorkbook := fun _ => .openErr }

/-- Environment where the picker chooses path 0 and everything succeeds. -/
def envA : Env :=
  { pickFile := some 0
    isFile := fun _ => true
    watchOk := fun _ => true
    openWorkbook := fun _ => .sheet ws6 }

/-- Environment where the picker chooses path 1 and everything succeeds. -/
def envB : Env := { envA with pickFile := some 1 }

/-- Environment where the picker chooses path 0, the file exists, but
`watcher.watch` fails. -/
def envWatchFail : Env := { envA with watchOk := fun _ => false }

/-- The initial gate state (`Mutex::default()` holds `None`, empty channel). -/
def gate0 : GateState := { lock := none, queue := [] }

/-! ## Helper lemmas -/

/-- The row loop collects exactly one numeric value per visited row. -/
theorem read_m_v_length (ws : Worksheet) (l : List Nat) (vs : List ℚ)
    (h : read_m_v ws l = some vs) : vs.length = l.length := by
  induction l generalizing vs with
  | nil =>
    simp only [read_m_v, Option.some.injEq] at h
    subst h
    rfl
  | cons r rest ih =>
    simp only [read_m_v] at h
    split at h
    · simp at h
    · cases hc : ws.cell r 0 with
      | none => simp [hc] at h
      | some v =>
        simp only [hc] at h
        cases hr : read_m_v ws rest with
        | none => simp [hr] at h
        | some vs2 =>
          simp only [hr, Option.some.injEq] at h
          subst h
          simp [ih vs2 hr]

/-- The `reduce(f32::max)` step yields a value on every non-empty list. -/
theorem reduceMax_isSome (l : List ℚ) (h : l ≠ []) : (reduceMax l).isSome = true := by
  cases l with
  | nil => exact absurd rfl h
  | cons x xs => rfl

/-! ## Claim theorems -/

/-- Claim C1 (code bug): the Skip invariant fails on the code.  In the trace
send `Update`; send `FileDialog`; worker processes the `Update`; send `Update`,
the `FileDialog` has been accepted and is still unprocessed (still at the head
of the queue), yet the second `Update` is enqueued behind it: processing the
first `Update` cleared the `FileDialog` lock, because
`lock_signal.can_unlock(signal)` in `reset_signal_lock` lets a processed
`Update` clear any recorded lock, contradicting the source comment that higher
locks cannot be unlocked by lower ones. -/
theorem C1_bug_trace :
    (sysRun lg0 envNoFile sys0
        [.send .Update, .send .FileDialog, .process, .send .Update]).gate
      = { lock := some .Update, queue := [.FileDialog, .Update] } := by decide

/-- Claim C2 (code bug): Stop does not absorb all sends on the code.  In the
trace send `Update`; send `Stop`; worker processes the `Update`; send
`FileDialog`, the `Stop` was accepted (and is still queued), yet
`reset_signal_lock(Update)` cleared the recorded `Stop` lock, so the
subsequent `FileDialog` is accepted and enqueued rather than being a no-op. -/
theorem C2_bug_trace :
    (sysRun lg0 envNoFile sys0
        [.send .Update, .send .Stop, .process, .send .FileDialog]).gate
      = { lock := some .FileDialog, queue := [.Stop, .FileDialog] } := by decide

/-- Claim C3 (counterexample): an accepted `Update` IS recorded as the lock
value, because `Signal::is_lock` returns `true` for every signal, so the
recorded lock is not restricted to `None`, `FileDialog`, `Stop`. -/
theorem C3_counterexample :
    (send_signal gate0 .Update).lock = some .Update ∧
    Signal.is_lock .Update = true := by decide

/-- Claim C3 (amended): `send` either discards the signal or both enqueues it
and records it as the new lock value — every signal kind, `Update` included,
is lock-type, so the recorded lock ranges over all of `None`, `Update`,
`FileDialog`, `Stop`. -/
theorem C3_amended_thm (g : GateState) (s : Signal) :
    send_signal g s = g ∨
    ((send_signal g s).lock = some s ∧ (send_signal g s).queue = g.queue ++ [s]) := by
  rcases g with ⟨lock, q⟩
  cases lock with
  | none => right; simp [send_signal, Signal.is_lock]
  | some l =>
    by_cases h : s.should_skip l = true
    · left; simp [send_signal, h]
    · right; simp [send_signal, h, Signal.is_lock]

/-- Claim C4 (counterexample): a watcher construction failure makes the worker
run crash before processing any signal (first conjunct); a `watcher.watch`
registration failure aborts the loop with no response emitted (second
conjunct); an event-stream error leaves the gate untouched and sends nothing
(third conjunct).  No `Response::Error` is produced in any of these cases and
the worker does not stay alive, contrary to the claim. -/
theorem C4_counterexample :
    worker_run lg0 false envA [.FileDialog] = .crashed [] ∧
    worker_run lg0 true envWatchFail [.FileDialog, .Update] = .crashed [] ∧
    watcher_callback gate0 (.error ()) = gate0 := by decide

/-- Claim C4 (amended): watcher construction failures and watch-registration
failures terminate the worker (the error propagates out of the loop) without
any `Response`; event-stream errors are only logged and change nothing; the
error taxonomy has no `WatcherFailed` variant. -/
theorem C4_amended_thm (lg : ℚ → ℚ) (env : Env) (st : WorkerState) (p : Path)
    (signals : List Signal) (g : GateState)
    (h1 : env.pickFile = some p) (h2 : env.isFile p = true)
    (h3 : env.watchOk p = false) :
    worker_step lg env st .FileDialog = .fatal [] ∧
    worker_run lg false env signals = .crashed [] ∧
    watcher_callback g (.error ()) = g := by
  refine ⟨?_, rfl, rfl⟩
  simp [worker_step, h1, h2, h3]

/-- Witness for the amended claim C4, at the concrete watch-failure
environment. -/
theorem C4_amended_witness :
    worker_step lg0 envWatchFail wst0 .FileDialog = .fatal [] ∧
    worker_run lg0 false envWatchFail [.Update] = .crashed [] ∧
    watcher_callback gate0 (.error ()) = gate0 :=
  C4_amended_thm lg0 envWatchFail wst0 0 [.Update] gate0 rfl rfl rfl

/-- Claim C5 (counterexample): the worker's signal set has no `Unload`
command; no signal processed while no path is tracked ever emits
`Response::Unload` — `Update` and a cancelled-or-failed `FileDialog` emit no
`Unload`, and `Stop` just breaks the loop. -/
theorem C5_counterexample :
    Response.Unload ∉ (worker_step lg0 envNoFile wst0 .Update).resps ∧
    Response.Unload ∉ (worker_step lg0 envNoFile wst0 .FileDialog).resps ∧
    Response.Unload ∉ (worker_step lg0 envNoFile wst0 .Stop).resps := by decide

/-- Claim C5 (amended): the signal set accepted by the worker is exactly
`Update`, `FileDialog`, `Stop` — there is no `Unload` signal — and processing
`Update` when no path is tracked emits no response at all and leaves the
worker state unchanged. -/
theorem C5_amended_thm (lg : ℚ → ℚ) (env : Env) (w : List Path) (s : Signal) :
    worker_step lg env { path := none, watched := w } .Update
      = .cont { path := none, watched := w } [] ∧
    (s = .Update ∨ s = .FileDialog ∨ s = .Stop) := by
  refine ⟨rfl, ?_⟩
  cases s <;> simp

/-- Claim C6 (counterexample): the picker chooses path 0, the file exists,
opening the workbook fails; the worker emits `Response::Error` but still
records path 0 as the tracked path (state `with_file = true`), contrary to the
claimed `Idle { with_file := false }`. -/
theorem C6_counterexample :
    worker_step lg0 envOpenErr wst0 .FileDialog
      = .cont { path := some 0, watched := [0] } [.Error .TableError] := by decide

/-- Claim C6 (amended): when a `FileDialog` load of an existing file fails,
the worker emits `Response::Error` and nevertheless sets the tracked path to
the chosen file (and watches it), so a subsequent `Update` will retry that
file. -/
theorem C6_amended_thm (lg : ℚ → ℚ) (env : Env) (st : WorkerState) (p : Path)
    (e : WorkerError)
    (h1 : env.pickFile = some p) (h2 : env.isFile p = true)
    (h3 : env.watchOk p = true)
    (h4 : load_file lg (env.openWorkbook p) = .Error e) :
    worker_step lg env st .FileDialog
      = .cont { path := some p, watched := watchAdd p st.watched } [.Error e] := by
  simp [worker_step, h1, h2, h3, h4]

/-- Witness for the amended claim C6, at the concrete open-failure
environment. -/
theorem C6_amended_witness :
    worker_step lg0 envOpenErr wst0 .FileDialog
      = .cont { path := some 0, watched := watchAdd 0 wst0.watched }
          [.Error .TableError] :=
  C6_amended_thm lg0 envOpenErr wst0 0 .TableError rfl rfl rfl rfl

/-- Claim C7 (counterexample): two successful `FileDialog` loads of distinct
paths 0 and 1 leave BOTH paths watched (`[1, 0]`): the code never unwatches
the old path on a new load, so more than one path can be watched at a time. -/
theorem C7_counterexample :
    (((worker_step lg0 envB
          ((worker_step lg0 envA wst0 .FileDialog).stateD wst0)
          .FileDialog).stateD wst0)).watched = [1, 0] ∧
    (worker_step lg0 envA wst0 .FileDialog).resps.map Response.isOutput = [true] ∧
    (worker_step lg0 envB
        ((worker_step lg0 envA wst0 .FileDialog).stateD wst0)
        .FileDialog).resps.map Response.isOutput = [true] := by decide

/-- Claim C7 (amended): on a successful `FileDialog` load the worker watches
the new path and tracks it, but does not unwatch the previously tracked path:
the old path stays watched. -/
theorem C7_amended_thm (lg : ℚ → ℚ) (env : Env) (st : WorkerState) (p : Path)
    (o : Output)
    (h1 : env.pickFile = some p) (h2 : env.isFile p = true)
    (h3 : env.watchOk p = true)
    (h4 : load_file lg (env.openWorkbook p) = .Output o) :
    worker_step lg env st .FileDialog
      = .cont { path := some p, watched := watchAdd p st.watched } [.Output o] := by
  simp [worker_step, h1, h2, h3, h4]

/-- Witness for the amended claim C7, at the concrete successful-load
environment. -/
theorem C7_amended_witness :
    worker_step lg0 envA wst0 .FileDialog
      = .cont { path := some 0, watched := watchAdd 0 wst0.watched }
          [.Output out6] :=
  C7_amended_thm lg0 envA wst0 0 out6 rfl rfl rfl rfl

/-- Claim C8 (confirmed): when `Update` is processed while the tracked path no
longer exists on disk, the worker unwatches that path, clears the tracked
path, and the only response emitted for that signal is exactly
`Response::Unload`. -/
theorem C8_unload_on_disappearance (lg : ℚ → ℚ) (env : Env) (st : WorkerState)
    (p : Path) (h1 : st.path = some p) (h2 : env.isFile p = false) :
    worker_step lg env st .Update
      = .cont { path := none, watched := st.watched.erase p } [.Unload] := by
  simp [worker_step, h1, h2]

/-- Witness for claim C8, at a concrete state tracking the vanished path 0. -/
theorem C8_unload_witness :
    worker_step lg0 envNoFile { path := some 0, watched := [0] } .Update
      = .cont { path := none, watched := ([0] : List Path).erase 0 }
          [.Unload] :=
  C8_unload_on_disappearance lg0 envNoFile { path := some 0, watched := [0] } 0 rfl rfl

/-- Claim C9 (confirmed): sending `Update` twice in immediate succession (no
lock reset in between) has exactly the same effect on the gate — lock and
enqueued signals — as sending it once: the second `Update` is skipped, so only
one reload can occur. -/
theorem C9_update_idempotent (g : GateState) :
    send_signal (send_signal g .Update) .Update = send_signal g .Update := by
  rcases g with ⟨lock, q⟩
  cases lock with
  | none =>
    simp [send_signal, Signal.is_lock, Signal.should_skip, Signal.le, Signal.toNat]
  | some l =>
    cases l <;>
      simp [send_signal, Signal.is_lock, Signal.should_skip, Signal.le, Signal.toNat]

/-- Claim C10 (confirmed): every `Response::Output` produced by `load_file`
carries a non-empty item list — the worksheet must have at least 6 rows and
every row from index 5 on contributes one parsed value — so
`Output::max_m_v`'s `reduce(f32::max)` yields a value and the `0.0` fallback
of `unwrap_or` is never taken on worker-produced outputs. -/
theorem C10_output_nonempty (lg : ℚ → ℚ) (res : OpenResult) (o : Output)
    (h : load_file lg res = .Output o) :
    o.items ≠ [] ∧ (reduceMax (o.items.map OutputItem.m_v)).isSome = true := by
  cases res with
  | openErr => simp [load_file] at h
  | noSheet => simp [load_file] at h
  | sheetErr => simp [load_file] at h
  | sheet ws =>
    simp only [load_file] at h
    split at h
    · simp at h
    next hsz =>
      split at h
      next t_v t_c m_c h02 h12 h22 =>
        cases hmv : read_m_v ws ((List.range ws.height).drop 5) with
        | none => simp [hmv] at h
        | some m_v =>
          simp only [hmv, Response.Output.injEq] at h
          subst h
          have hlen := read_m_v_length ws _ m_v hmv
          have h6 : 6 ≤ ws.height := by
            rcases Nat.lt_or_ge ws.height 6 with hlt | hge
            · exact absurd (Or.inl hlt) hsz
            · exact hge
          have hne : m_v ≠ [] := by
            intro hnil
            rw [hnil] at hlen
            simp [List.length_drop, List.length_range] at hlen
            omega
          have hitems : ((Input.mk t_v t_c m_c m_v 0 0).calculate_output lg).items ≠ [] := by
            simp [Input.calculate_output]
            exact hne
          refine ⟨hitems, reduceMax_isSome _ ?_⟩
          simpa [List.map_eq_nil_iff] using hitems
      next h0 =>
        simp at h

/-- Witness for claim C10, at the concrete well-formed 6-by-6 worksheet. -/
theorem C10_output_nonempty_witness :
    out6.items ≠ [] ∧ (reduceMax (out6.items.map OutputItem.m_v)).isSome = true :=
  C10_output_nonempty lg0 (.sheet ws6) out6 rfl

end Titration
